import Mathlib

/-!
Verification of the JDBC driver facade (src/JDBCDriver.js).

The file shallowly embeds the driver: configuration merging and validation
(constructor), the pool lifecycle hooks (create / validate), statement
execution with cancellation wiring (executeStatement, queryPromised, query),
error translation, and testConnection.  External collaborators (the
supported-drivers catalog, the SqlString formatter, the generic-pool
library and the native JDBC layer reached through the GraalVM interop) are
modelled as explicit parameters, following the contracts the spec assigns
to them.
-/

namespace JDBCDriver

/-- Connection properties: a string-to-string mapping, as iterated by
Object.entries in getJdbcProperties. -/
abbrev Props := List (String × String)

/-- Row set: ordered rows, each a mapping from column name to value.  The
native resultSet.toObjArray conversion performed at the end of
executeStatement is folded into the native oracle, which directly answers
with the converted rows. -/
abbrev RowSet := List (List (String × String))

/-- Error kinds distinguished by the spec's taxonomy: a TypeError raised by
the JS runtime (for example Object.entries on undefined), a ConnectionError
from the native driver, or a plain Error built with new Error(msg). -/
inductive ErrKind where
  | typeError
  | connectionError
  | plain
deriving DecidableEq, Repr

/-- Exception value as observed by queryPromised's catch block: a message
and, when the native layer attached one, a root cause whose getMessage()
result is recorded. -/
structure JSException where
  kind : ErrKind
  message : String
  cause : Option String
deriving DecidableEq, Repr

/-- Plain new Error(msg): no kind beyond a message, no cause. -/
def plainError (m : String) : JSException :=
  { kind := ErrKind.plain, message := m, cause := none }

/-- Modelled from the spec: one entry of the supported-drivers catalog
(file supported-drivers.js, not under src/): driver class, default URL
builder result, default properties and optional pre-connection statements.
The catalog itself is passed around as an opaque lookup, as §1 of the spec
prescribes. -/
structure Descriptor where
  driverClass : String
  jdbcUrl : String
  properties : Props
  prepareConnectionQueries : Option (List String)

/-- Explicit configuration handed to the constructor; none models an absent
key of the JS config object. -/
structure RawConfig where
  dbType : Option String
  url : Option String
  drivername : Option String
  properties : Option Props
  prepareConnectionQueries : Option (List String)
  customClassPath : Option String

/-- Environment variables read by the constructor; none models an unset
variable. -/
structure Env where
  CUBEJS_DB_TYPE : Option String
  CUBEJS_JDBC_URL : Option String
  CUBEJS_JDBC_DRIVER : Option String

/-- JS truthiness of a string-valued expression: undefined and the empty
string are falsy. -/
def jsTruthy : Option String → Bool
  | none => false
  | some s => !(s == "")

/-- JS a || b on string-valued expressions. -/
def jsOr (a b : Option String) : Option String :=
  if jsTruthy a then a else b

/-- Catalog lookup performed on line 26 of the source:
JDBCDriver.dbTypeDescription(config.dbType || process.env.CUBEJS_DB_TYPE),
with an undefined key looking up nothing. -/
def lookupDescriptor (raw : RawConfig) (env : Env)
    (catalog : String → Option Descriptor) : Option Descriptor :=
  (jsOr raw.dbType env.CUBEJS_DB_TYPE).bind catalog

/-- Configuration after the constructor's merge (lines 29-35): environment
and catalog defaults first, then the object spread of the explicit config
overriding any key it carries. -/
structure MergedConfig where
  dbType : Option String
  url : Option String
  drivername : Option String
  properties : Option Props
  prepareConnectionQueries : Option (List String)
  customClassPath : Option String

/-- Merge of lines 29-35: each default is computed with JS || / &&
semantics, and the spread of dbOptions replaces a field exactly when the
explicit config carries that key. -/
def mergeConfig (raw : RawConfig) (env : Env)
    (catalog : String → Option Descriptor) : MergedConfig :=
  let desc := lookupDescriptor raw env catalog
  { dbType := raw.dbType <|> env.CUBEJS_DB_TYPE
    url := raw.url <|> jsOr env.CUBEJS_JDBC_URL (desc.map Descriptor.jdbcUrl)
    drivername :=
      raw.drivername <|> jsOr env.CUBEJS_JDBC_DRIVER (desc.map Descriptor.driverClass)
    properties := raw.properties <|> desc.map Descriptor.properties
    prepareConnectionQueries := raw.prepareConnectionQueries
    customClassPath := raw.customClassPath }

/-- Constructor of the facade (lines 21-43): merge the configuration, then
require a truthy drivername and a truthy url, throwing otherwise. -/
def constructor (raw : RawConfig) (env : Env)
    (catalog : String → Option Descriptor) : Except JSException MergedConfig :=
  let cfg := mergeConfig raw env catalog
  if jsTruthy cfg.drivername = false then
    Except.error (plainError "drivername is required property")
  else if jsTruthy cfg.url = false then
    Except.error (plainError "url is required property")
  else
    Except.ok cfg

/-- Observable native-layer and pool events, in the order the driver
performs them. -/
inductive Event where
  | connCreated (conn : Nat)
  | acquired (conn : Nat)
  | released (conn : Nat)
  | stmtCreated (conn : Nat) (stmt : Nat)
  | cancelBound (stmt : Nat)
  | timeoutSet (stmt : Nat) (seconds : Nat)
  | queryExecuted (stmt : Nat) (sql : String)
  | nativeCancel (stmt : Nat)
deriving DecidableEq, Repr

/-- Behaviour of the opaque native layer: whether
DriverManager.getConnection succeeds, and the outcome of
statement.executeQuery per SQL text (rows already converted by
resultSet.toObjArray). -/
structure NativeBehavior where
  openResult : Except JSException Unit
  exec : String → Except JSException RowSet

/-- Modelled from the spec: state of the generic-pool instance (an external
dependency), per §4.1: connections created so far (also used as ids), the
idle set and the connections currently acquired. -/
structure PoolState where
  createdCount : Nat
  idle : List Nat
  inUse : List Nat
deriving DecidableEq, Repr

/-- State threaded through one driver instance's runs: the pool, the
lazily cached jdbcProps (line 49-52), the cancelObj.cancel cell of the
query in flight (statement id it is bound to), the fresh-statement counter
and the event trace. -/
structure RunState where
  pool : PoolState
  jdbcProps : Option Props
  cancelCell : Option Nat
  nextStmt : Nat
  events : List Event
deriving DecidableEq, Repr

/-- Fresh driver instance: empty pool, no cached jdbcProps, no statement
yet. -/
def initRunState : RunState :=
  { pool := { createdCount := 0, idle := [], inUse := [] }
    jdbcProps := none
    cancelCell := none
    nextStmt := 0
    events := [] }

/-- TypeError thrown by Object.entries(undefined); it carries no cause. -/
def entriesTypeError : JSException :=
  { kind := ErrKind.typeError
    message := "Cannot convert undefined or null to object"
    cause := none }

/-- getJdbcProperties (lines 86-94): iterates Object.entries over
config.properties; when that mapping is undefined (no catalog entry and no
explicit properties) Object.entries throws a TypeError. -/
def getJdbcProperties (cfg : MergedConfig) : Except JSException Props :=
  match cfg.properties with
  | none => Except.error entriesTypeError
  | some ps => Except.ok ps

/-- The create hook handed to the pool (lines 47-54): initClassPath (no
observable effect modelled), compute getJdbcProperties once per instance,
then DriverManager.getConnection.  Returns the properties to cache. -/
def driverCreate (cfg : MergedConfig) (nb : NativeBehavior)
    (cached : Option Props) : Except JSException Props :=
  match cached with
  | some ps =>
      match nb.openResult with
      | Except.error e => Except.error e
      | Except.ok _ => Except.ok ps
  | none =>
      match getJdbcProperties cfg with
      | Except.error e => Except.error e
      | Except.ok ps =>
          match nb.openResult with
          | Except.error e => Except.error e
          | Except.ok _ => Except.ok ps

/-- Modelled from the spec: generic-pool acquire per §4.1 and §8 — hand
out an idle connection when one exists, otherwise run the create hook while
under max (connections assumed to stay valid, so the testOnBorrow probe
passes), otherwise fail with the acquisition timeout. -/
def poolAcquire (cfg : MergedConfig) (nb : NativeBehavior) (maxSize : Nat)
    (st : RunState) : Except JSException Nat × RunState :=
  match st.pool.idle with
  | c :: rest =>
      (Except.ok c,
        { st with
          pool := { st.pool with idle := rest, inUse := c :: st.pool.inUse }
          events := st.events ++ [Event.acquired c] })
  | [] =>
      if st.pool.createdCount < maxSize then
        match driverCreate cfg nb st.jdbcProps with
        | Except.error e => (Except.error e, st)
        | Except.ok ps =>
            let c := st.pool.createdCount
            (Except.ok c,
              { st with
                pool :=
                  { createdCount := c + 1
                    idle := []
                    inUse := c :: st.pool.inUse }
                jdbcProps := some ps
                events := st.events ++ [Event.connCreated c, Event.acquired c] })
      else
        (Except.error (plainError "ResourceRequest timed out"), st)

/-- Modelled from the spec: generic-pool release per §4.1 — the connection
returns to the idle set. -/
def poolRelease (conn : Nat) (st : RunState) : RunState :=
  { st with
    pool :=
      { st.pool with
        inUse := st.pool.inUse.erase conn
        idle := st.pool.idle ++ [conn] }
    events := st.events ++ [Event.released conn] }

/-- executeStatement (lines 168-180): create a fresh statement on the
connection, bind cancelObj.cancel to the statement's native cancel when a
cancelObj was passed, set the fixed 600 second query timeout, then invoke
executeQuery; the result rows come back through toObjArray. -/
def executeStatement (nb : NativeBehavior) (conn : Nat) (q : String)
    (withCancel : Bool) (st : RunState) : Except JSException RowSet × RunState :=
  let sid := st.nextStmt
  (nb.exec q,
    { st with
      nextStmt := sid + 1
      cancelCell := if withCancel then some sid else st.cancelCell
      events :=
        st.events ++ [Event.stmtCreated conn sid] ++
          (if withCancel then [Event.cancelBound sid] else []) ++
          [Event.timeoutSet sid 600, Event.queryExecuted sid q] })

/-- Loop of lines 149-151: run each preparatory statement in order on the
acquired connection, without cancellation wiring, stopping at the first
failure. -/
def runPrepQueries (nb : NativeBehavior) (conn : Nat) :
    List String → RunState → Except JSException Unit × RunState
  | [], st => (Except.ok (), st)
  | q :: qs, st =>
      match executeStatement nb conn q false st with
      | (Except.ok _, st1) => runPrepQueries nb conn qs st1
      | (Except.error e, st1) => (Except.error e, st1)

/-- Third argument of queryPromised as a JS value: undefined, an object
with an optional prepareConnectionQueries field, or an array — query (line
121) passes the resolved preparatory list itself, an array. -/
inductive OptionsArg where
  | undef
  | obj (prepareConnectionQueries : Option (List String))
  | arr (elems : List String)
deriving DecidableEq, Repr

/-- JS property access options.prepareConnectionQueries (line 148): present
only on an object carrying the field; on an array it is undefined. -/
def OptionsArg.getPrepareConnectionQueries : OptionsArg → Option (List String)
  | OptionsArg.obj p => p
  | OptionsArg.arr _ => none
  | OptionsArg.undef => none

/-- Line 144: options = options || an empty object. -/
def normalizeOptions : OptionsArg → OptionsArg
  | OptionsArg.undef => OptionsArg.obj none
  | o => o

/-- Error translation of lines 156-162: an exception carrying a cause is
re-thrown as new Error(ex.cause.getMessage()); otherwise the exception
propagates unchanged. -/
def translateError (e : JSException) : JSException :=
  match e.cause with
  | some m => plainError m
  | none => e

/-- Body of queryPromised after the preparatory list has been read from
options (lines 145-162): acquire, run preparatory statements, run the main
query with cancellation wiring, release in the finally, translate errors in
the catch. -/
def queryPromisedCore (cfg : MergedConfig) (nb : NativeBehavior)
    (maxSize : Nat) (q : String) (prep : List String) (st : RunState) :
    Except JSException RowSet × RunState :=
  match poolAcquire cfg nb maxSize st with
  | (Except.error e, st1) => (Except.error (translateError e), st1)
  | (Except.ok conn, st1) =>
      match runPrepQueries nb conn prep st1 with
      | (Except.error e, st2) =>
          (Except.error (translateError e), poolRelease conn st2)
      | (Except.ok _, st2) =>
          match executeStatement nb conn q true st2 with
          | (Except.error e, st3) =>
              (Except.error (translateError e), poolRelease conn st3)
          | (Except.ok rows, st3) => (Except.ok rows, poolRelease conn st3)

/-- queryPromised (lines 143-163): normalize options, read the
options.prepareConnectionQueries property (undefined on anything but an
object carrying it), defaulting to the empty list, then run the core. -/
def queryPromised (cfg : MergedConfig) (nb : NativeBehavior) (maxSize : Nat)
    (q : String) (options : OptionsArg) (st : RunState) :
    Except JSException RowSet × RunState :=
  queryPromisedCore cfg nb maxSize q
    (((normalizeOptions options).getPrepareConnectionQueries).getD []) st

/-- prepareConnectionQueries method (lines 107-112): the explicit config
list when the key is present (any array is truthy in JS, even the empty
one), else the catalog entry's list looked up by the merged dbType, else
the empty list. -/
def prepareConnectionQueries (cfg : MergedConfig)
    (catalog : String → Option Descriptor) : List String :=
  let desc := cfg.dbType.bind catalog
  match cfg.prepareConnectionQueries with
  | some qs => qs
  | none => (desc.bind Descriptor.prepareConnectionQueries).getD []

/-- applyParams (line 15) defers to SqlString.format, an external pure
function passed as a parameter. -/
def applyParams (fmt : String → List String → String) (q : String)
    (params : List String) : String :=
  fmt q params

/-- Collaborators and configuration one facade instance closes over: the
merged config, the catalog, the native layer, the resolved pool max and
the SQL formatter. -/
structure DriverCtx where
  cfg : MergedConfig
  catalog : String → Option Descriptor
  nb : NativeBehavior
  maxSize : Nat
  fmt : String → List String → String

/-- query (lines 118-125), settlement view: format the parameters into the
query, allocate a fresh empty cancelObj, and call queryPromised passing the
resolved preparatory list (an array) as the options argument.  This
definition gives the settled result and final state of the run; query being
an async function, the object the caller actually receives is a fresh
wrapper promise adopting this settlement, modelled by queryReturnValue
below. -/
def query (ctx : DriverCtx) (q : String) (values : List String)
    (st : RunState) : Except JSException RowSet × RunState :=
  let queryWithParams := applyParams ctx.fmt q values
  queryPromised ctx.cfg ctx.nb ctx.maxSize queryWithParams
    (OptionsArg.arr (prepareConnectionQueries ctx.cfg ctx.catalog))
    { st with cancelCell := none }

/-- Outcome of invoking the promise's cancel operation. -/
inductive CancelOutcome where
  | rejected (msg : String)
  | invoked (events : List Event)
deriving DecidableEq, Repr

/-- Cancel operation attached to the promise (lines 122-123): when
cancelObj.cancel has been bound it is invoked, reaching the native
statement.cancel of the bound statement once; before the statement exists
the call rejects with the "not ready" error. -/
def promiseCancel (cancelCell : Option Nat) : CancelOutcome :=
  match cancelCell with
  | none => CancelOutcome.rejected "Statement is not ready"
  | some sid => CancelOutcome.invoked [Event.nativeCancel sid]

/-- Promise object as a JS value: its settlement and whether it carries an
own cancel property.  Line 122 attaches cancel as an expando property on
one particular promise object; properties are not part of a promise's
settlement and are not transferred to other promises that adopt it. -/
structure PromiseValue where
  settled : Except JSException RowSet
  hasCancelProperty : Bool
deriving Repr

/-- The inner promise object of lines 121-123: the queryPromised promise
with the cancel operation attached as an own property.  This object stays
local to query's body. -/
def innerQueryPromise (ctx : DriverCtx) (q : String) (values : List String)
    (st : RunState) : PromiseValue × RunState :=
  ({ settled := (query ctx q values st).1, hasCancelProperty := true },
    (query ctx q values st).2)

/-- The value query actually returns to its caller: query is declared
async (line 118), so the call produces a fresh promise; return promise
(line 124) makes that fresh promise adopt the inner promise's settlement,
but the cancel property attached on line 122 exists only on the inner
object and is not copied onto the wrapper the caller receives. -/
def queryReturnValue (ctx : DriverCtx) (q : String) (values : List String)
    (st : RunState) : PromiseValue × RunState :=
  ({ settled := (query ctx q values st).1, hasCancelProperty := false },
    (query ctx q values st).2)

/-- Outcome of evaluating p.cancel() on a promise value. -/
inductive CancelCallResult where
  | typeErrorNotAFunction
  | ran (o : CancelOutcome)
deriving DecidableEq, Repr

/-- Evaluating p.cancel() on a promise value given the current state of the
cancellation cell: when the object carries no cancel property the property
access yields undefined and the call throws a TypeError; when it does, the
closure of lines 122-123 runs against the cell. -/
def callCancel (p : PromiseValue) (cancelCell : Option Nat) : CancelCallResult :=
  if p.hasCancelProperty then CancelCallResult.ran (promiseCancel cancelCell)
  else CancelCallResult.typeErrorNotAFunction

/-- testConnection (lines 100-102). -/
def testConnection (ctx : DriverCtx) (st : RunState) :
    Except JSException RowSet × RunState :=
  query ctx "SELECT 1" [] st

/-- Written from the spec's words, for comparison with the source's
testConnection: shorthand for query of SELECT 1 with empty params. -/
def testConnectionSpec (ctx : DriverCtx) (st : RunState) :
    Except JSException RowSet × RunState :=
  query ctx "SELECT 1" [] st

/-- Behaviour of one connection.isValid(t) probe: a boolean, or a throw. -/
inductive ProbeResult where
  | ok (valid : Bool)
  | threw (e : JSException)
deriving DecidableEq, Repr

/-- The validate hook handed to the pool (lines 56-62): probe
connection.isValid with the configured test-connection timeout divided by
1000 (this.testConnectionTimeout() is inherited from the external
BaseDriver, so it is a parameter here), returning false when the probe
throws. -/
def validate (isValid : Rat → ProbeResult) (testConnectionTimeout : Rat) :
    Bool :=
  match isValid (testConnectionTimeout / 1000) with
  | ProbeResult.ok b => b
  | ProbeResult.threw _ => false

/-- Sequential composition of K query calls on one facade instance. -/
def runKQueries (ctx : DriverCtx) (q : String) (values : List String) :
    Nat → RunState → RunState
  | 0, st => st
  | Nat.succ k, st => runKQueries ctx q values k (query ctx q values st).2

/-! Concrete fixtures used to instantiate the theorems below. -/

/-- Sample catalog entry. -/
def sampleDescriptor : Descriptor :=
  { driverClass := "org.demo.Driver"
    jdbcUrl := "jdbc:demo://localhost"
    properties := [("user", "demo")]
    prepareConnectionQueries := some ["SET ROLE reader"] }

/-- Sample catalog: one entry under the key demo. -/
def sampleCatalog : String → Option Descriptor :=
  fun t => if t = "demo" then some sampleDescriptor else none

/-- Environment with none of the three variables set. -/
def emptyEnv : Env :=
  { CUBEJS_DB_TYPE := none, CUBEJS_JDBC_URL := none, CUBEJS_JDBC_DRIVER := none }

/-- Sample explicit configuration with url, drivername and properties. -/
def sampleRaw : RawConfig :=
  { dbType := some "demo"
    url := some "db://host"
    drivername := some "x.Driver"
    properties := some []
    prepareConnectionQueries := none
    customClassPath := none }

/-- Exception the sample native layer raises on the query BOOM: a wrapped
failure whose root cause message is the string the spec's scenario uses. -/
def sampleExecError : JSException :=
  { kind := ErrKind.plain, message := "execution failed", cause := some "syntax error" }

/-- Sample native layer: connections open, every query answers one row,
except BOOM which fails with sampleExecError. -/
def sampleNative : NativeBehavior :=
  { openResult := Except.ok ()
    exec := fun s =>
      if s = "BOOM" then Except.error sampleExecError else Except.ok [[("1", "1")]] }

/-- Sample facade context over the fixtures above, with pool max 1. -/
def sampleCtx : DriverCtx :=
  { cfg := mergeConfig sampleRaw emptyEnv sampleCatalog
    catalog := sampleCatalog
    nb := sampleNative
    maxSize := 1
    fmt := fun q _ => q }

/-- State right after the first successful acquisition from a fresh
instance: one connection created and in use. -/
def afterFirstAcquire : RunState :=
  { pool := { createdCount := 1, idle := [], inUse := [0] }
    jdbcProps := some []
    cancelCell := none
    nextStmt := 0
    events := [Event.connCreated 0, Event.acquired 0] }

/-! Preservation lemmas about the embedded operations. -/

theorem executeStatement_pool (nb : NativeBehavior) (conn : Nat) (q : String)
    (wc : Bool) (st : RunState) :
    (executeStatement nb conn q wc st).2.pool = st.pool := rfl

theorem executeStatement_cancelCell_true (nb : NativeBehavior) (conn : Nat)
    (q : String) (st : RunState) :
    (executeStatement nb conn q true st).2.cancelCell = some st.nextStmt := rfl

theorem runPrepQueries_pool (nb : NativeBehavior) (conn : Nat) :
    ∀ (qs : List String) (st : RunState),
      (runPrepQueries nb conn qs st).2.pool = st.pool := by
  intro qs
  induction qs with
  | nil => intro st; rfl
  | cons q qs ih =>
      intro st
      simp only [runPrepQueries]
      rcases hex : executeStatement nb conn q false st with ⟨r, st1⟩
      have hpool : st1.pool = st.pool := by
        have := executeStatement_pool nb conn q false st
        rw [hex] at this
        exact this
      cases r with
      | ok _ => simpa [hpool] using ih st1
      | error e => simpa using hpool

theorem poolRelease_pool (conn : Nat) (st : RunState) :
    (poolRelease conn st).pool.idle = st.pool.idle ++ [conn] ∧
    (poolRelease conn st).pool.inUse = st.pool.inUse.erase conn ∧
    (poolRelease conn st).pool.createdCount = st.pool.createdCount :=
  ⟨rfl, rfl, rfl⟩

/-! Claim theorems. -/

/-- C9: every statement executed by the executor (preparatory or main) is
created fresh for that single execution (it uses the next value of the
statement counter, which is then advanced), the fixed 600 second timeout is
set on it before executeQuery is invoked, and all of this is independent of
whether a cancellation handle is wired. -/
theorem C9_statement_timeout (nb : NativeBehavior) (conn : Nat) (q : String)
    (wc : Bool) (st : RunState) :
    (executeStatement nb conn q wc st).2.nextStmt = st.nextStmt + 1 ∧
    (executeStatement nb conn q wc st).2.events =
      st.events ++ [Event.stmtCreated conn st.nextStmt] ++
        (if wc then [Event.cancelBound st.nextStmt] else []) ++
        [Event.timeoutSet st.nextStmt 600, Event.queryExecuted st.nextStmt q] ∧
    (executeStatement nb conn q wc st).1 = nb.exec q :=
  ⟨rfl, rfl, rfl⟩

/-- C6: the pool's validate hook never throws: it probes isValid with the
configured test-connection timeout divided by 1000, returns the probe's
boolean when the probe succeeds, and returns false whenever the probe
throws. -/
theorem C6_validate_never_throws (isValid : Rat → ProbeResult)
    (t : Rat) :
    (∀ b : Bool, isValid (t / 1000) = ProbeResult.ok b → validate isValid t = b) ∧
    (∀ e : JSException, isValid (t / 1000) = ProbeResult.threw e →
      validate isValid t = false) := by
  constructor
  · intro b h
    simp [validate, h]
  · intro e h
    simp [validate, h]

/-- Witness for C6 at a concrete timeout of 10000 ms and concrete probes. -/
theorem C6_validate_never_throws_witness :
    validate (fun _ => ProbeResult.ok true) 10000 = true ∧
    validate (fun _ => ProbeResult.threw (plainError "probe failed")) 10000 = false :=
  ⟨(C6_validate_never_throws (fun _ => ProbeResult.ok true) 10000).1 true rfl,
   (C6_validate_never_throws (fun _ => ProbeResult.threw (plainError "probe failed"))
      10000).2 (plainError "probe failed") rfl⟩

/-- C10: testConnection is extensionally equal to query of SELECT 1 with
empty params (stated both against the spec-side definition and the call it
abbreviates), and on the spec's end-to-end fixture — where the native layer
answers SELECT 1 — it yields the one-row result set of that query. -/
theorem C10_testConnection_equiv :
    (∀ (ctx : DriverCtx) (st : RunState),
      testConnection ctx st = testConnectionSpec ctx st ∧
      testConnection ctx st = query ctx "SELECT 1" [] st) ∧
    (testConnection sampleCtx initRunState).1 = Except.ok [[("1", "1")]] ∧
    (Except.ok [[("1", "1")]] : Except JSException RowSet).map List.length =
      Except.ok 1 := by
  refine ⟨fun ctx st => ⟨rfl, rfl⟩, ?_, rfl⟩
  rfl

/-- C4: construction succeeds exactly when, after merging explicit config,
environment values and catalog defaults, both the driver identifier and the
url are truthy (present and non-empty); on success the facade's merged
config carries those non-empty fields. -/
theorem C4_construction_validation (raw : RawConfig) (env : Env)
    (catalog : String → Option Descriptor) :
    ((∃ m, constructor raw env catalog = Except.ok m) ↔
      (jsTruthy (mergeConfig raw env catalog).drivername = true ∧
       jsTruthy (mergeConfig raw env catalog).url = true)) ∧
    (∀ m, constructor raw env catalog = Except.ok m →
      jsTruthy m.drivername = true ∧ jsTruthy m.url = true) := by
  rcases hd : jsTruthy (mergeConfig raw env catalog).drivername with _ | _ <;>
    rcases hu : jsTruthy (mergeConfig raw env catalog).url with _ | _ <;>
      constructor <;>
        simp_all [constructor]

/-- Witness for C4 at the sample configuration, whose construction
succeeds. -/
theorem C4_construction_validation_witness :
    jsTruthy (mergeConfig sampleRaw emptyEnv sampleCatalog).drivername = true ∧
    jsTruthy (mergeConfig sampleRaw emptyEnv sampleCatalog).url = true :=
  (C4_construction_validation sampleRaw emptyEnv sampleCatalog).2
    (mergeConfig sampleRaw emptyEnv sampleCatalog) rfl

/-- C7: in the merged configuration, an explicitly supplied config field
(url, drivername, properties) takes precedence over the corresponding
environment value, which — when non-empty, the environment reading the
constructor's truthiness check gives it — takes precedence over the catalog
default; and the catalog descriptor is looked up by the explicit dbType
when a non-empty one is given, otherwise by the environment dbType. -/
theorem C7_merge_precedence (raw : RawConfig) (env : Env)
    (catalog : String → Option Descriptor) :
    (∀ u, raw.url = some u → (mergeConfig raw env catalog).url = some u) ∧
    (∀ d, raw.drivername = some d →
      (mergeConfig raw env catalog).drivername = some d) ∧
    (∀ p, raw.properties = some p →
      (mergeConfig raw env catalog).properties = some p) ∧
    (∀ e, raw.url = none → env.CUBEJS_JDBC_URL = some e → e ≠ "" →
      (mergeConfig raw env catalog).url = some e) ∧
    (∀ e, raw.drivername = none → env.CUBEJS_JDBC_DRIVER = some e → e ≠ "" →
      (mergeConfig raw env catalog).drivername = some e) ∧
    (raw.url = none → jsTruthy env.CUBEJS_JDBC_URL = false →
      (mergeConfig raw env catalog).url =
        (lookupDescriptor raw env catalog).map Descriptor.jdbcUrl) ∧
    (raw.drivername = none → jsTruthy env.CUBEJS_JDBC_DRIVER = false →
      (mergeConfig raw env catalog).drivername =
        (lookupDescriptor raw env catalog).map Descriptor.driverClass) ∧
    (raw.properties = none →
      (mergeConfig raw env catalog).properties =
        (lookupDescriptor raw env catalog).map Descriptor.properties) ∧
    (∀ t, raw.dbType = some t → t ≠ "" →
      lookupDescriptor raw env catalog = catalog t) ∧
    (jsTruthy raw.dbType = false →
      lookupDescriptor raw env catalog = env.CUBEJS_DB_TYPE.bind catalog) := by
  refine ⟨?_, ?_, ?_, ?_, ?_, ?_, ?_, ?_, ?_, ?_⟩
  · intro u h; simp [mergeConfig, h]
  · intro d h; simp [mergeConfig, h]
  · intro p h; simp [mergeConfig, h]
  · intro e h he hne; simp [mergeConfig, h, he, jsOr, jsTruthy, hne]
  · intro e h he hne; simp [mergeConfig, h, he, jsOr, jsTruthy, hne]
  · intro h he; simp [mergeConfig, h, jsOr, he]
  · intro h he; simp [mergeConfig, h, jsOr, he]
  · intro h; simp [mergeConfig, h]
  · intro t h hne; simp [lookupDescriptor, jsOr, jsTruthy, h, hne]
  · intro h; simp [lookupDescriptor, jsOr, h]

/-- Witness for C7: explicit url wins over a set environment url, and with
no explicit drivername a non-empty environment driver wins over the
catalog. -/
theorem C7_merge_precedence_witness :
    (mergeConfig sampleRaw
      { CUBEJS_DB_TYPE := none
        CUBEJS_JDBC_URL := some "jdbc:env"
        CUBEJS_JDBC_DRIVER := none } sampleCatalog).url = some "db://host" ∧
    (mergeConfig { sampleRaw with drivername := none }
      { CUBEJS_DB_TYPE := none
        CUBEJS_JDBC_URL := none
        CUBEJS_JDBC_DRIVER := some "env.Driver" } sampleCatalog).drivername =
      some "env.Driver" ∧
    lookupDescriptor sampleRaw emptyEnv sampleCatalog = sampleCatalog "demo" :=
  ⟨(C7_merge_precedence sampleRaw
      { CUBEJS_DB_TYPE := none
        CUBEJS_JDBC_URL := some "jdbc:env"
        CUBEJS_JDBC_DRIVER := none } sampleCatalog).1 "db://host" rfl,
   ((C7_merge_precedence { sampleRaw with drivername := none }
      { CUBEJS_DB_TYPE := none
        CUBEJS_JDBC_URL := none
        CUBEJS_JDBC_DRIVER := some "env.Driver" } sampleCatalog).2.2.2.2.1
      "env.Driver" rfl rfl (by decide)),
   ((C7_merge_precedence sampleRaw emptyEnv sampleCatalog).2.2.2.2.2.2.2.2.1
      "demo" rfl (by decide))⟩

/-- C1: evaluation of the code at the failing input.  query is declared
async, so the caller receives a fresh wrapper promise that adopts the inner
settlement; the cancel property attached to the inner promise object on
line 122 is not copied onto that wrapper, so the value returned to the
caller carries no cancel operation and invoking it is a TypeError for every
state of the cancellation cell — both before the statement exists and
after the run has bound it — never the claimed Statement-is-not-ready
rejection and never a native cancel invocation.  The inner promise, which
stays local to query's body, does behave exactly as the claim describes,
showing lines 122-123 were intended to expose that operation. -/
theorem C1_cancel_unreachable :
    (innerQueryPromise sampleCtx "SELECT 1" [] initRunState).1.hasCancelProperty =
      true ∧
    callCancel (innerQueryPromise sampleCtx "SELECT 1" [] initRunState).1 none =
      CancelCallResult.ran (CancelOutcome.rejected "Statement is not ready") ∧
    callCancel (innerQueryPromise sampleCtx "SELECT 1" [] initRunState).1
        ((innerQueryPromise sampleCtx "SELECT 1" [] initRunState).2.cancelCell) =
      CancelCallResult.ran (CancelOutcome.invoked [Event.nativeCancel 0]) ∧
    (queryReturnValue sampleCtx "SELECT 1" [] initRunState).1.hasCancelProperty =
      false ∧
    (∀ cancelCell : Option Nat,
      callCancel (queryReturnValue sampleCtx "SELECT 1" [] initRunState).1
          cancelCell =
        CancelCallResult.typeErrorNotAFunction) ∧
    (queryReturnValue sampleCtx "SELECT 1" [] initRunState).1.settled =
      (query sampleCtx "SELECT 1" [] initRunState).1 :=
  ⟨rfl, rfl, by decide, rfl, fun _ => rfl, rfl⟩

/-- C3: a failure raised during preparatory or main statement execution
inside queryPromised is rewrapped when it carries a cause — the rejection
is a plain new Error whose message is exactly the root cause's message —
and propagates unchanged otherwise; this holds both on the main-query path
and on the preparatory path. -/
theorem C3_error_unwrap (ctx : DriverCtx) (q p : String) (ps : List String)
    (st st1 : RunState) (conn : Nat) (e e2 : JSException)
    (hacq : poolAcquire ctx.cfg ctx.nb ctx.maxSize st = (Except.ok conn, st1)) :
    ((∀ m, e.cause = some m →
        translateError e = plainError m ∧ (translateError e).message = m) ∧
     (e.cause = none → translateError e = e)) ∧
    (ctx.nb.exec q = Except.error e →
      (queryPromised ctx.cfg ctx.nb ctx.maxSize q (OptionsArg.arr ps) st).1 =
        Except.error (translateError e)) ∧
    (ctx.nb.exec p = Except.error e2 →
      (queryPromised ctx.cfg ctx.nb ctx.maxSize q
          (OptionsArg.obj (some (p :: ps))) st).1 =
        Except.error (translateError e2)) := by
  refine ⟨⟨?_, ?_⟩, ?_, ?_⟩
  · intro m h
    simp [translateError, h, plainError]
  · intro h
    simp [translateError, h]
  · intro hex
    simp only [queryPromised, normalizeOptions,
      OptionsArg.getPrepareConnectionQueries, Option.getD_none]
    simp only [queryPromisedCore, hacq, runPrepQueries]
    simp [executeStatement, hex]
  · intro hex
    simp only [queryPromised, normalizeOptions,
      OptionsArg.getPrepareConnectionQueries, Option.getD_some]
    simp only [queryPromisedCore, hacq, runPrepQueries]
    simp [executeStatement, hex]

/-- Witness for C3: the sample native layer fails on BOOM with a wrapped
error whose cause message is syntax error, and queryPromised rejects with a
plain error carrying exactly that message. -/
theorem C3_error_unwrap_witness :
    translateError sampleExecError = plainError "syntax error" ∧
    (queryPromised sampleCtx.cfg sampleCtx.nb sampleCtx.maxSize "BOOM"
      (OptionsArg.arr []) initRunState).1 =
      Except.error (plainError "syntax error") := by
  have h := C3_error_unwrap sampleCtx "BOOM" "BOOM" [] initRunState
    afterFirstAcquire 0 sampleExecError sampleExecError rfl
  have h1 : translateError sampleExecError = plainError "syntax error" :=
    (h.1.1 "syntax error" rfl).1
  exact ⟨h1, by rw [h.2.1 rfl, h1]⟩

theorem poolAcquire_error_state (cfg : MergedConfig) (nb : NativeBehavior)
    (maxSize : Nat) (st st1 : RunState) (e : JSException)
    (hacq : poolAcquire cfg nb maxSize st = (Except.error e, st1)) : st1 = st := by
  cases hidle : st.pool.idle with
  | cons c rest => simp [poolAcquire, hidle] at hacq
  | nil =>
      simp only [poolAcquire, hidle] at hacq
      by_cases hlt : st.pool.createdCount < maxSize
      · simp only [hlt, if_true] at hacq
        rcases hdc : driverCreate cfg nb st.jdbcProps with e2 | ps <;>
          simp [hdc] at hacq
        exact hacq.2.symm
      · simp only [hlt, if_false, Prod.mk.injEq] at hacq
        exact hacq.2.symm

theorem poolAcquire_ok_max_one (cfg : MergedConfig) (nb : NativeBehavior)
    (st st1 : RunState) (conn : Nat)
    (hacq : poolAcquire cfg nb 1 st = (Except.ok conn, st1))
    (hinuse : st.pool.inUse = [])
    (hlen : st.pool.idle.length = st.pool.createdCount)
    (hle : st.pool.createdCount ≤ 1) :
    st1.pool.inUse = [conn] ∧ st1.pool.idle = [] ∧
      st1.pool.createdCount = 1 := by
  cases hidle : st.pool.idle with
  | nil =>
      have hc : st.pool.createdCount = 0 := by
        rw [← hlen, hidle]
        rfl
      simp only [poolAcquire, hidle, hc, Nat.zero_lt_one, if_true] at hacq
      rcases hdc : driverCreate cfg nb st.jdbcProps with e2 | ps <;>
        simp [hdc] at hacq
      obtain ⟨hconn, hst1⟩ := hacq
      subst hst1
      simp [← hconn, hc, hinuse]
  | cons c rest =>
      have hrest : rest = [] ∧ st.pool.createdCount = 1 := by
        rw [hidle] at hlen
        rcases rest with _ | ⟨d, ds⟩
        · exact ⟨rfl, by simpa using hlen.symm⟩
        · exfalso
          rw [← hlen] at hle
          simp at hle
      simp only [poolAcquire, hidle, Prod.mk.injEq, Except.ok.injEq] at hacq
      obtain ⟨hconn, hst1⟩ := hacq
      subst hst1
      simp [← hconn, hinuse, hrest.1, hrest.2]

theorem queryPromisedCore_final_pool (cfg : MergedConfig) (nb : NativeBehavior)
    (maxSize : Nat) (q : String) (prep : List String) (st st1 : RunState)
    (conn : Nat)
    (hacq : poolAcquire cfg nb maxSize st = (Except.ok conn, st1)) :
    (queryPromisedCore cfg nb maxSize q prep st).2.pool.idle =
      st1.pool.idle ++ [conn] ∧
    (queryPromisedCore cfg nb maxSize q prep st).2.pool.inUse =
      st1.pool.inUse.erase conn ∧
    (queryPromisedCore cfg nb maxSize q prep st).2.pool.createdCount =
      st1.pool.createdCount ∧
    Event.released conn ∈ (queryPromisedCore cfg nb maxSize q prep st).2.events := by
  simp only [queryPromisedCore, hacq]
  rcases hrp : runPrepQueries nb conn prep st1 with ⟨r2, st2⟩
  have hp2 : st2.pool = st1.pool := by
    have h := runPrepQueries_pool nb conn prep st1
    rw [hrp] at h
    exact h
  cases r2 with
  | error e => simp [poolRelease, hp2]
  | ok u =>
      rcases hex : nb.exec q with e | rows <;>
        simp [executeStatement, hex, poolRelease, hp2]

/-- Invariant carried across sequential queries on a max-1 pool: no
connection held between calls, the idle set holds every created connection,
and at most one connection has ever been created. -/
def PoolInv (st : RunState) : Prop :=
  st.pool.inUse = [] ∧ st.pool.idle.length = st.pool.createdCount ∧
    st.pool.createdCount ≤ 1

theorem query_preserves_PoolInv (ctx : DriverCtx) (hmax : ctx.maxSize = 1)
    (q : String) (vs : List String) (st : RunState) (hinv : PoolInv st) :
    PoolInv (query ctx q vs st).2 := by
  obtain ⟨hinuse, hlen, hle⟩ := hinv
  have h0inuse : (RunState.pool { st with cancelCell := none }).inUse = [] := hinuse
  have h0len : (RunState.pool { st with cancelCell := none }).idle.length =
      (RunState.pool { st with cancelCell := none }).createdCount := hlen
  have h0le : (RunState.pool { st with cancelCell := none }).createdCount ≤ 1 := hle
  rcases hacq : poolAcquire ctx.cfg ctx.nb ctx.maxSize
      { st with cancelCell := none } with ⟨r, st1⟩
  cases r with
  | error e =>
      have hst1 : st1 = { st with cancelCell := none } :=
        poolAcquire_error_state ctx.cfg ctx.nb ctx.maxSize _ st1 e hacq
      simp only [query, queryPromised, queryPromisedCore, hacq, hst1]
      exact ⟨hinuse, hlen, hle⟩
  | ok conn =>
      rw [hmax] at hacq
      have h1 := poolAcquire_ok_max_one ctx.cfg ctx.nb _ st1 conn hacq
        h0inuse h0len h0le
      rw [← hmax] at hacq
      have h2 := queryPromisedCore_final_pool ctx.cfg ctx.nb ctx.maxSize
        (applyParams ctx.fmt q vs)
        (((normalizeOptions
            (OptionsArg.arr (prepareConnectionQueries ctx.cfg ctx.catalog))).getPrepareConnectionQueries).getD [])
        _ st1 conn hacq
      refine ⟨?_, ?_, ?_⟩ <;>
        simp only [query, queryPromised]
      · rw [h2.2.1, h1.1]
        simp
      · rw [h2.1, h2.2.2.1, h1.2.1, h1.2.2]
        rfl
      · rw [h2.2.2.1, h1.2.2]

theorem runKQueries_PoolInv (ctx : DriverCtx) (hmax : ctx.maxSize = 1)
    (q : String) (vs : List String) :
    ∀ (K : Nat) (st : RunState), PoolInv st →
      PoolInv (runKQueries ctx q vs K st) := by
  intro K
  induction K with
  | zero => intro st h; exact h
  | succ k ih =>
      intro st h
      exact ih (query ctx q vs st).2 (query_preserves_PoolInv ctx hmax q vs st h)

/-- C2: whenever acquisition succeeds inside queryPromised, the connection
is released before the call completes — the release event is in the trace
and the connection is back in the idle set whatever the statements did —
and consequently, with pool max 1, K sequential queries never create more
than one physical connection. -/
theorem C2_release_no_leak (ctx : DriverCtx) (q : String) (opts : OptionsArg)
    (st st1 : RunState) (conn : Nat)
    (hacq : poolAcquire ctx.cfg ctx.nb ctx.maxSize st = (Except.ok conn, st1)) :
    (Event.released conn ∈
        (queryPromised ctx.cfg ctx.nb ctx.maxSize q opts st).2.events ∧
      conn ∈ (queryPromised ctx.cfg ctx.nb ctx.maxSize q opts st).2.pool.idle) ∧
    (∀ (K : Nat) (vs : List String), ctx.maxSize = 1 →
      (runKQueries ctx q vs K initRunState).pool.createdCount ≤ 1) := by
  have h := queryPromisedCore_final_pool ctx.cfg ctx.nb ctx.maxSize q
    (((normalizeOptions opts).getPrepareConnectionQueries).getD []) st st1 conn hacq
  refine ⟨⟨?_, ?_⟩, ?_⟩
  · simpa only [queryPromised] using h.2.2.2
  · simp only [queryPromised, h.1]
    simp
  · intro K vs hmax
    exact (runKQueries_PoolInv ctx hmax q vs K initRunState
      ⟨rfl, rfl, by decide⟩).2.2

/-- Witness for C2: a concrete run on the sample fixtures (pool max 1):
connection 0 is released and idle again, and five sequential queries create
at most one connection. -/
theorem C2_release_no_leak_witness :
    (Event.released 0 ∈
        (queryPromised sampleCtx.cfg sampleCtx.nb sampleCtx.maxSize "SELECT 1"
          (OptionsArg.arr []) initRunState).2.events ∧
      0 ∈ (queryPromised sampleCtx.cfg sampleCtx.nb sampleCtx.maxSize "SELECT 1"
          (OptionsArg.arr []) initRunState).2.pool.idle) ∧
    (runKQueries sampleCtx "SELECT 1" [] 5 initRunState).pool.createdCount ≤ 1 :=
  have h := C2_release_no_leak sampleCtx "SELECT 1" (OptionsArg.arr [])
    initRunState afterFirstAcquire 0 rfl
  ⟨⟨h.1.1, h.1.2⟩, h.2 5 [] rfl⟩

/-- C5: evaluation of the code at a failing input.  On the sample fixtures
the resolved prepareConnectionQueries list is the non-empty SET ROLE reader
list, yet query passes that list itself — an array — as the options
argument of queryPromised (line 121), and the property access
options.prepareConnectionQueries on an array yields undefined (line 148),
so the run's trace executes the main query only: no preparatory statement
is ever executed, contradicting the claimed behaviour. -/
theorem C5_prep_queries_not_executed :
    prepareConnectionQueries sampleCtx.cfg sampleCtx.catalog =
      ["SET ROLE reader"] ∧
    OptionsArg.getPrepareConnectionQueries
      (normalizeOptions (OptionsArg.arr ["SET ROLE reader"])) = none ∧
    (query sampleCtx "SELECT 1" [] initRunState).2.events =
      [Event.connCreated 0, Event.acquired 0, Event.stmtCreated 0 0,
       Event.cancelBound 0, Event.timeoutSet 0 600,
       Event.queryExecuted 0 "SELECT 1", Event.released 0] ∧
    ((query sampleCtx "SELECT 1" [] initRunState).2.events.countP
      (fun ev =>
        match ev with
        | Event.queryExecuted _ sql => sql == "SET ROLE reader"
        | _ => false)) = 0 := by
  exact ⟨rfl, rfl, by decide, by decide⟩

/-- C8: with no catalog entry for the configured dbType and no explicit
properties mapping, construction still succeeds when url and drivername are
truthy, but the merged properties mapping is undefined, so every connection
creation — hence the first acquire of any query — fails with the TypeError
from enumerating the undefined mapping, not with a ConnectionError. -/
theorem C8_undefined_properties (raw : RawConfig) (env : Env)
    (catalog catalog2 : String → Option Descriptor) (nb : NativeBehavior)
    (fmt : String → List String → String) (maxSize : Nat) (q : String)
    (vs : List String)
    (hdesc : lookupDescriptor raw env catalog = none)
    (hprops : raw.properties = none)
    (hd : jsTruthy (mergeConfig raw env catalog).drivername = true)
    (hu : jsTruthy (mergeConfig raw env catalog).url = true)
    (hmax : 0 < maxSize) :
    constructor raw env catalog = Except.ok (mergeConfig raw env catalog) ∧
    (mergeConfig raw env catalog).properties = none ∧
    getJdbcProperties (mergeConfig raw env catalog) =
      Except.error entriesTypeError ∧
    (query
        { cfg := mergeConfig raw env catalog, catalog := catalog2, nb := nb
          maxSize := maxSize, fmt := fmt } q vs initRunState).1 =
      Except.error entriesTypeError ∧
    entriesTypeError.kind = ErrKind.typeError ∧
    entriesTypeError.kind ≠ ErrKind.connectionError := by
  have hpnone : (mergeConfig raw env catalog).properties = none := by
    simp [mergeConfig, hdesc, hprops]
  have hjdbc : getJdbcProperties (mergeConfig raw env catalog) =
      Except.error entriesTypeError := by
    simp [getJdbcProperties, hpnone]
  refine ⟨?_, hpnone, hjdbc, ?_, rfl, by decide⟩
  · simp [constructor, hd, hu]
  · simp only [query, queryPromised, queryPromisedCore]
    have hacq : poolAcquire (mergeConfig raw env catalog) nb maxSize
        { initRunState with cancelCell := none } =
        (Except.error entriesTypeError, { initRunState with cancelCell := none }) := by
      have hcreate : driverCreate (mergeConfig raw env catalog) nb none =
          Except.error entriesTypeError := by
        simp [driverCreate, hjdbc]
      simp [poolAcquire, initRunState, hmax, hcreate]
    rw [hacq]
    rfl

/-- Witness for C8: a concrete configuration whose dbType has no catalog
entry and which supplies no properties. -/
theorem C8_undefined_properties_witness :
    constructor
        { dbType := none, url := some "jdbc:x", drivername := some "d.Driver"
          properties := none, prepareConnectionQueries := none
          customClassPath := none } emptyEnv (fun _ => none) =
      Except.ok (mergeConfig
        { dbType := none, url := some "jdbc:x", drivername := some "d.Driver"
          properties := none, prepareConnectionQueries := none
          customClassPath := none } emptyEnv (fun _ => none)) ∧
    (query
        { cfg := mergeConfig
            { dbType := none, url := some "jdbc:x", drivername := some "d.Driver"
              properties := none, prepareConnectionQueries := none
              customClassPath := none } emptyEnv (fun _ => none)
          catalog := fun _ => none, nb := sampleNative
          maxSize := 8, fmt := fun q _ => q } "SELECT 1" [] initRunState).1 =
      Except.error entriesTypeError :=
  have h := C8_undefined_properties
    { dbType := none, url := some "jdbc:x", drivername := some "d.Driver"
      properties := none, prepareConnectionQueries := none
      customClassPath := none } emptyEnv (fun _ => none) (fun _ => none)
    sampleNative (fun q _ => q) 8 "SELECT 1" [] rfl rfl rfl rfl (by decide)
  ⟨h.1, h.2.2.2.1⟩

end JDBCDriver
